import Mathlib

/-!
Verification development for the GameEngine core of the GraphicsLearning
repository: the GLSL shader-program wrapper (GLSLProgram.h), the framebuffer
wrapper (Framebuffer.h) and the FPS limiter (Timing.h).  The headers declare
the classes and member fields; the member-function bodies live in translation
units outside the excerpt, so each operation is modelled from the spec, with
its doc comment saying so.  GPU driver state (object handles, the current
program binding) is made explicit as a `GLState` record, and driver behaviour
that depends on shader text (compile success, attribute locations) is
abstracted into oracle functions passed as parameters.
-/

namespace GameEngine

/-- Abstract model of the OpenGL driver state that the wrapper classes touch:
a fresh-handle counter (handles start at 1; 0 means "no object"), the sets of
live shader and program objects, and the currently bound program. -/
structure GLState where
  nextId : Nat
  liveShaders : List Nat
  livePrograms : List Nat
  attached : List (Nat × Nat)
  currentProgram : Nat
deriving Repr, DecidableEq

/-- The initial driver state: no live objects, no attachments, no program
bound. -/
def GLState.fresh : GLState :=
  { nextId := 1, liveShaders := [], livePrograms := [], attached := [],
    currentProgram := 0 }

/-- Model of glCreateShader: allocates a fresh shader object handle. -/
def glCreateShader (gl : GLState) : Nat × GLState :=
  (gl.nextId,
   { gl with nextId := gl.nextId + 1, liveShaders := gl.nextId :: gl.liveShaders })

/-- Model of glDeleteShader: releases a shader object handle. -/
def glDeleteShader (id : Nat) (gl : GLState) : GLState :=
  { gl with liveShaders := gl.liveShaders.erase id }

/-- Model of glAttachShader: records the program-shader attachment. -/
def glAttachShader (prog shader : Nat) (gl : GLState) : GLState :=
  { gl with attached := (prog, shader) :: gl.attached }

/-- Model of glDetachShader: removes the program-shader attachment. -/
def glDetachShader (prog shader : Nat) (gl : GLState) : GLState :=
  { gl with attached := gl.attached.filter (fun pr => pr != (prog, shader)) }

/-- Model of glCreateProgram: allocates a fresh program object handle. -/
def glCreateProgram (gl : GLState) : Nat × GLState :=
  (gl.nextId,
   { gl with nextId := gl.nextId + 1, livePrograms := gl.nextId :: gl.livePrograms })

/-- Model of glDeleteProgram: releases a program object handle. -/
def glDeleteProgram (id : Nat) (gl : GLState) : GLState :=
  { gl with livePrograms := gl.livePrograms.erase id }

/-- `struct Shader` from GLSLProgram.h: stage kind (a GLenum), the compiled
object handle `shaderID` (0 until compiled), the source file path and a
human-readable name.  Field defaults follow the in-class initializers. -/
structure Shader where
  type : Nat
  shaderID : Nat := 0
  filePath : String := "Default"
  name : String := "Default"
deriving Repr, DecidableEq

/-- Error kinds of the error-handling design (spec section 7). -/
inductive ShaderError where
  | compileError (stageName diagnostic : String)
  | linkError (diagnostic : String)
  | stateError (msg : String)
  | notFoundError (name : String)
deriving Repr, DecidableEq

/-- `class GLSLProgram` private state from GLSLProgram.h: the linked program
handle `m_programID`, the vector of stage objects `m_shaders`, and the two
location caches (unordered maps, modelled as association lists where a fresh
registration is consed in front and lookup takes the first hit). -/
structure GLSLProgram where
  m_programID : Nat := 0
  m_shaders : List Shader := []
  m_attribList : List (String × Nat) := []
  m_unifLocationList : List (String × Nat) := []
deriving Repr, DecidableEq

/-- A freshly constructed GLSLProgram: no program handle, no stages, empty
location caches. -/
def GLSLProgram.new : GLSLProgram := {}

/-- Helper of the stage-compilation loop: compiles the remaining stages,
carrying the stages already compiled in this call (most recent first).
On a compiler failure it deletes the just-created object and every object
created earlier in this call, then surfaces a CompileError naming the stage.
`compileOk` is the driver compile oracle on the stage source and `diag` the
driver diagnostic text. -/
def compileStagesAux (compileOk : String → Bool) (diag : String → String)
    (done : List Shader) (gl : GLState) :
    List Shader → Except ShaderError (List Shader) × GLState
  | [] => (.ok done.reverse, gl)
  | s :: rest =>
    let (id, gl1) := glCreateShader gl
    if compileOk s.filePath then
      compileStagesAux compileOk diag ({ s with shaderID := id } :: done) gl1 rest
    else
      let gl2 := glDeleteShader id gl1
      let gl3 := done.foldl (fun g sh => glDeleteShader sh.shaderID g) gl2
      (.error (.compileError s.name (diag s.filePath)), gl3)

/-- Modelled from the spec: `GLSLProgram::CompileShaders` (body not in the
excerpt).  For each stage it creates a GPU shader object, loads and compiles
the source and checks compile status; it fails with a CompileError carrying
the stage name and the compiler diagnostic if the driver reports failure for
a stage, and on that failure path every object already created in the call is
released before the error propagates.  On success the compiled stages are
stored in `m_shaders`. -/
def CompileShaders (compileOk : String → Bool) (diag : String → String)
    (p : GLSLProgram) (gl : GLState) (stages : List Shader) :
    Except ShaderError GLSLProgram × GLState :=
  match compileStagesAux compileOk diag [] gl stages with
  | (.ok shs, gl1) => (.ok { p with m_shaders := shs }, gl1)
  | (.error e, gl1) => (.error e, gl1)

/-- The first stage of the list that the compile oracle rejects, if any. -/
def firstFail (compileOk : String → Bool) : List Shader → Option Shader
  | [] => none
  | s :: rest => if compileOk s.filePath then firstFail compileOk rest else some s

/-- Deleting, in order, the shader objects of a stage list that forms the
front of the live-shader list peels the front off exactly. -/
theorem foldl_delete_liveShaders (ds : List Shader) :
    ∀ (gl : GLState) (old : List Nat),
      gl.liveShaders = ds.map (fun sh => sh.shaderID) ++ old →
      (ds.foldl (fun g sh => glDeleteShader sh.shaderID g) gl).liveShaders = old := by
  induction ds with
  | nil => intro gl old h; simpa using h
  | cons d ds ih =>
    intro gl old h
    simp only [List.foldl_cons]
    apply ih
    simp [glDeleteShader, h]

/-- The fold of shader deletions leaves the program-object list alone. -/
theorem foldl_delete_livePrograms (ds : List Shader) :
    ∀ (gl : GLState),
      (ds.foldl (fun g sh => glDeleteShader sh.shaderID g) gl).livePrograms =
        gl.livePrograms := by
  induction ds with
  | nil => intro gl; rfl
  | cons d ds ih =>
    intro gl
    simp only [List.foldl_cons]
    rw [ih]
    rfl

/-- If some remaining stage fails to compile, the compilation loop surfaces a
CompileError naming the first failing stage and restores the driver object
lists to what they were before the call started. -/
theorem compileStagesAux_error (compileOk : String → Bool) (diag : String → String)
    (stages : List Shader) :
    ∀ (done : List Shader) (gl : GLState) (old : List Nat) (sbad : Shader),
      gl.liveShaders = done.map (fun sh => sh.shaderID) ++ old →
      firstFail compileOk stages = some sbad →
      ∃ gl1, compileStagesAux compileOk diag done gl stages =
          (.error (.compileError sbad.name (diag sbad.filePath)), gl1)
        ∧ gl1.liveShaders = old
        ∧ gl1.livePrograms = gl.livePrograms := by
  induction stages with
  | nil => intro done gl old sbad _ hbad; simp [firstFail] at hbad
  | cons s rest ih =>
    intro done gl old sbad hlive hbad
    by_cases hok : compileOk s.filePath
    · have hbad1 : firstFail compileOk rest = some sbad := by
        simpa [firstFail, hok] using hbad
      have hlive1 :
          (glCreateShader gl).2.liveShaders =
            (({ s with shaderID := (glCreateShader gl).1 } :: done).map
              (fun sh => sh.shaderID)) ++ old := by
        simp [glCreateShader, hlive]
      obtain ⟨gl1, heq, hl, hp⟩ :=
        ih ({ s with shaderID := (glCreateShader gl).1 } :: done)
          (glCreateShader gl).2 old sbad hlive1 hbad1
      refine ⟨gl1, ?_, hl, ?_⟩
      · simpa [compileStagesAux, hok] using heq
      · rw [hp]; rfl
    · have hsbad : sbad = s := by
        have := hbad
        simp [firstFail, hok] at this
        exact this.symm
      subst hsbad
      refine ⟨done.foldl (fun g sh => glDeleteShader sh.shaderID g)
          (glDeleteShader (glCreateShader gl).1 (glCreateShader gl).2), ?_, ?_, ?_⟩
      · simp [compileStagesAux, hok]
      · apply foldl_delete_liveShaders
        simp [glDeleteShader, glCreateShader, hlive]
      · rw [foldl_delete_livePrograms]
        rfl

/-- C1: for every stage set containing at least one malformed source (one the
driver compile oracle rejects), CompileShaders fails with a CompileError that
names the (first) offending stage; every GPU shader object created during the
call has been released before the error propagates (the live-shader list is
exactly what it was), no program object was created, and a program handle that
was not a valid program object before the call is still not one afterwards, so
the GLSLProgram retains no valid GPU program object. -/
theorem CompileShaders_malformed (compileOk : String → Bool) (diag : String → String)
    (p : GLSLProgram) (gl : GLState) (stages : List Shader) (sbad : Shader)
    (hbad : firstFail compileOk stages = some sbad)
    (hfresh : p.m_programID ∉ gl.livePrograms) :
    ∃ gl1, CompileShaders compileOk diag p gl stages =
        (.error (.compileError sbad.name (diag sbad.filePath)), gl1)
      ∧ gl1.liveShaders = gl.liveShaders
      ∧ gl1.livePrograms = gl.livePrograms
      ∧ p.m_programID ∉ gl1.livePrograms := by
  obtain ⟨gl1, heq, hl, hp⟩ :=
    compileStagesAux_error compileOk diag stages [] gl gl.liveShaders sbad (by simp) hbad
  refine ⟨gl1, ?_, hl, hp, ?_⟩
  · simp [CompileShaders, heq]
  · rw [hp]; exact hfresh

/-- Witness for C1 at a concrete input: a vertex stage that compiles and a
fragment stage whose source is rejected. -/
theorem CompileShaders_malformed_witness :
    ∃ gl1, CompileShaders (fun src => src != "bad.frag") (fun _ => "syntax error")
        GLSLProgram.new GLState.fresh
        [{ type := 1, filePath := "ok.vert", name := "vertex" },
         { type := 2, filePath := "bad.frag", name := "fragment" }] =
        (.error (.compileError "fragment" "syntax error"), gl1)
      ∧ gl1.liveShaders = GLState.fresh.liveShaders
      ∧ gl1.livePrograms = GLState.fresh.livePrograms
      ∧ GLSLProgram.new.m_programID ∉ gl1.livePrograms :=
  CompileShaders_malformed (fun src => src != "bad.frag") (fun _ => "syntax error")
    GLSLProgram.new GLState.fresh
    [{ type := 1, filePath := "ok.vert", name := "vertex" },
     { type := 2, filePath := "bad.frag", name := "fragment" }]
    { type := 2, filePath := "bad.frag", name := "fragment" }
    (by decide) (by decide)

/-- One step of the post-link cleanup loop: detach the stage object from the
linked program, then delete it. -/
def detachDeleteStep (pid : Nat) (g : GLState) (sh : Shader) : GLState :=
  glDeleteShader sh.shaderID (glDetachShader pid sh.shaderID g)

/-- Modelled from the spec: `GLSLProgram::LinkShaders` (body not in the
excerpt).  Without a prior successful compilation (empty `m_shaders`) it is a
precondition violation surfacing a StateError.  Otherwise it creates a program
object, attaches all compiled stage objects, links and checks link status:
on failure it releases the partially created program object and surfaces a
LinkError; on success it detaches and deletes each individual stage object,
keeping only the linked program handle in `m_programID`. -/
def LinkShaders (linkOk : Bool) (linkDiag : String) (p : GLSLProgram) (gl : GLState) :
    Except ShaderError GLSLProgram × GLState :=
  if p.m_shaders = [] then
    (.error (.stateError "LinkShaders requires a prior successful compilation"), gl)
  else
    let (pid, gl1) := glCreateProgram gl
    let gl2 := p.m_shaders.foldl (fun g sh => glAttachShader pid sh.shaderID g) gl1
    if linkOk then
      let gl3 := p.m_shaders.foldl (detachDeleteStep pid) gl2
      (.ok { p with m_programID := pid, m_shaders := [] }, gl3)
    else
      (.error (.linkError linkDiag), glDeleteProgram pid gl2)

/-- Modelled from the spec: `GLSLProgram::Use` binds this program as the
active one (global GPU binding state). -/
def Use (p : GLSLProgram) (gl : GLState) : GLState :=
  { gl with currentProgram := p.m_programID }

/-- Modelled from the spec: `GLSLProgram::UnUse` unconditionally restores the
no-program state (handle 0); it does not restore a previously bound program. -/
def UnUse (_p : GLSLProgram) (gl : GLState) : GLState :=
  { gl with currentProgram := 0 }

/-- The attach loop touches only the attachment list. -/
theorem attachFold_fields (pid : Nat) (ds : List Shader) :
    ∀ gl : GLState,
      (ds.foldl (fun g sh => glAttachShader pid sh.shaderID g) gl).liveShaders =
          gl.liveShaders
      ∧ (ds.foldl (fun g sh => glAttachShader pid sh.shaderID g) gl).livePrograms =
          gl.livePrograms := by
  induction ds with
  | nil => intro gl; exact ⟨rfl, rfl⟩
  | cons d ds ih =>
    intro gl
    simpa using ih (glAttachShader pid d.shaderID gl)

/-- The detach-and-delete loop only ever shrinks the live-shader and
attachment lists, preserves freedom from duplicates among live shaders, and
leaves the program list alone. -/
theorem ddFold_shrink (pid : Nat) (ds : List Shader) :
    ∀ gl : GLState,
      ((ds.foldl (detachDeleteStep pid) gl).liveShaders ⊆ gl.liveShaders)
      ∧ ((ds.foldl (detachDeleteStep pid) gl).attached ⊆ gl.attached)
      ∧ (gl.liveShaders.Nodup → (ds.foldl (detachDeleteStep pid) gl).liveShaders.Nodup)
      ∧ (ds.foldl (detachDeleteStep pid) gl).livePrograms = gl.livePrograms := by
  induction ds with
  | nil => intro gl; exact ⟨fun _ h => h, fun _ h => h, fun h => h, rfl⟩
  | cons d ds ih =>
    intro gl
    obtain ⟨h1, h2, h3, h4⟩ := ih (detachDeleteStep pid gl d)
    refine ⟨?_, ?_, ?_, ?_⟩
    · intro x hx
      have hx1 := h1 hx
      simp only [detachDeleteStep, glDeleteShader, glDetachShader] at hx1
      exact List.mem_of_mem_erase hx1
    · intro x hx
      have hx1 := h2 hx
      simp only [detachDeleteStep, glDeleteShader, glDetachShader] at hx1
      exact List.mem_of_mem_filter hx1
    · intro hnd
      apply h3
      simp only [detachDeleteStep, glDeleteShader, glDetachShader]
      exact hnd.erase _
    · rw [List.foldl_cons, h4]; rfl

/-- After the detach-and-delete loop, no processed stage object is live and no
attachment of the linked program to a processed stage object remains. -/
theorem ddFold_releases (pid : Nat) (ds : List Shader) :
    ∀ gl : GLState, gl.liveShaders.Nodup →
      ∀ sh ∈ ds, sh.shaderID ∉ (ds.foldl (detachDeleteStep pid) gl).liveShaders
        ∧ (pid, sh.shaderID) ∉ (ds.foldl (detachDeleteStep pid) gl).attached := by
  induction ds with
  | nil => intro gl _ sh hsh; simp at hsh
  | cons d ds ih =>
    intro gl hnd sh hsh
    have hnd1 : (detachDeleteStep pid gl d).liveShaders.Nodup := by
      simp only [detachDeleteStep, glDeleteShader, glDetachShader]
      exact hnd.erase _
    rcases List.mem_cons.mp hsh with hEq | hMem
    · subst hEq
      obtain ⟨hsub, hsubA, _, _⟩ := ddFold_shrink pid ds (detachDeleteStep pid gl sh)
      constructor
      · intro hmem
        have := hsub hmem
        simp only [detachDeleteStep, glDeleteShader, glDetachShader] at this
        exact (List.Nodup.not_mem_erase hnd) this
      · intro hmem
        have := hsubA hmem
        simp only [detachDeleteStep, glDeleteShader, glDetachShader,
          List.mem_filter] at this
        simpa using this.2
    · simpa using ih (detachDeleteStep pid gl d) hnd1 sh hMem

/-- C4: calling LinkShaders without a prior successful compilation (the stage
vector `m_shaders` is still empty, as it is on a fresh GLSLProgram and after a
failed CompileShaders, which leaves the object untouched) fails with a
StateError instead of proceeding to link: no GL object is created and the
driver state is unchanged. -/
theorem LinkShaders_without_compile (linkOk : Bool) (linkDiag : String)
    (p : GLSLProgram) (gl : GLState) (h : p.m_shaders = []) :
    LinkShaders linkOk linkDiag p gl =
      (.error (.stateError "LinkShaders requires a prior successful compilation"), gl) := by
  simp [LinkShaders, h]

/-- Witness for C4: linking a freshly constructed GLSLProgram fails with a
StateError and leaves the driver state alone. -/
theorem LinkShaders_without_compile_witness :
    LinkShaders true "diag" GLSLProgram.new GLState.fresh =
      (.error (.stateError "LinkShaders requires a prior successful compilation"),
        GLState.fresh) :=
  LinkShaders_without_compile true "diag" GLSLProgram.new GLState.fresh rfl

/-- C5: when LinkShaders succeeds, every individual compiled stage object has
been detached from the linked program and deleted (it is no longer a live
shader object and no attachment of it to the program remains), the stage
vector is cleared, and the single linked program handle is a live program
object: the only GPU state the GLSLProgram still owns. -/
theorem LinkShaders_success_releases_stages (linkDiag : String)
    (p : GLSLProgram) (gl : GLState)
    (hne : p.m_shaders ≠ []) (hnd : gl.liveShaders.Nodup) :
    ∃ p1 gl3, LinkShaders true linkDiag p gl = (.ok p1, gl3)
      ∧ (∀ sh ∈ p.m_shaders, sh.shaderID ∉ gl3.liveShaders)
      ∧ (∀ sh ∈ p.m_shaders, (p1.m_programID, sh.shaderID) ∉ gl3.attached)
      ∧ p1.m_shaders = []
      ∧ p1.m_programID ∈ gl3.livePrograms := by
  have hAtt := attachFold_fields (glCreateProgram gl).1 p.m_shaders (glCreateProgram gl).2
  set gl2 := p.m_shaders.foldl
    (fun g sh => glAttachShader (glCreateProgram gl).1 sh.shaderID g)
    (glCreateProgram gl).2 with hgl2
  have hnd2 : gl2.liveShaders.Nodup := by
    rw [hAtt.1]
    simpa [glCreateProgram] using hnd
  refine ⟨{ p with m_programID := (glCreateProgram gl).1, m_shaders := [] },
    p.m_shaders.foldl (detachDeleteStep (glCreateProgram gl).1) gl2, ?_, ?_, ?_, rfl, ?_⟩
  · simp [LinkShaders, hne]
  · intro sh hsh
    exact (ddFold_releases (glCreateProgram gl).1 p.m_shaders gl2 hnd2 sh hsh).1
  · intro sh hsh
    exact (ddFold_releases (glCreateProgram gl).1 p.m_shaders gl2 hnd2 sh hsh).2
  · have hdd := (ddFold_shrink (glCreateProgram gl).1 p.m_shaders gl2).2.2.2
    simp only [hdd, hAtt.2]
    simp [glCreateProgram]

/-- Witness for C5: a program holding one compiled stage links; the stage
object is released and only the program handle remains live. -/
theorem LinkShaders_success_releases_stages_witness :
    ∃ p1 gl3,
      LinkShaders true "diag"
          { GLSLProgram.new with
              m_shaders := [{ type := 1, shaderID := 1, filePath := "ok.vert",
                              name := "vertex" }] }
          { GLState.fresh with nextId := 2, liveShaders := [1] } = (.ok p1, gl3)
        ∧ (∀ sh ∈ [({ type := 1, shaderID := 1, filePath := "ok.vert",
                      name := "vertex" } : Shader)], sh.shaderID ∉ gl3.liveShaders)
        ∧ (∀ sh ∈ [({ type := 1, shaderID := 1, filePath := "ok.vert",
                      name := "vertex" } : Shader)],
            (p1.m_programID, sh.shaderID) ∉ gl3.attached)
        ∧ p1.m_shaders = []
        ∧ p1.m_programID ∈ gl3.livePrograms :=
  LinkShaders_success_releases_stages "diag"
    { GLSLProgram.new with
        m_shaders := [{ type := 1, shaderID := 1, filePath := "ok.vert",
                        name := "vertex" }] }
    { GLState.fresh with nextId := 2, liveShaders := [1] }
    (by decide) (by decide)

/-- C3: after any Use-UnUse pair on a GLSLProgram, the driver is back in the
no-active-program state (current program handle 0); in particular UnUse never
restores a program that was bound before the matching Use. -/
theorem UnUse_after_Use_restores_no_program (p : GLSLProgram) (gl : GLState) :
    (UnUse p (Use p gl)).currentProgram = 0
    ∧ (gl.currentProgram ≠ 0 →
        (UnUse p (Use p gl)).currentProgram ≠ gl.currentProgram) := by
  refine ⟨rfl, ?_⟩
  intro h hc
  exact h (hc.symm.trans rfl)

/-- Witness for C3: with program 7 bound beforehand, a Use-UnUse pair on
another program ends with program 0 bound, not 7. -/
theorem UnUse_after_Use_restores_no_program_witness :
    (UnUse GLSLProgram.new (Use GLSLProgram.new
        { GLState.fresh with currentProgram := 7 })).currentProgram = 0
    ∧ (UnUse GLSLProgram.new (Use GLSLProgram.new
        { GLState.fresh with currentProgram := 7 })).currentProgram ≠ 7 :=
  ⟨(UnUse_after_Use_restores_no_program GLSLProgram.new
      { GLState.fresh with currentProgram := 7 }).1,
   (UnUse_after_Use_restores_no_program GLSLProgram.new
      { GLState.fresh with currentProgram := 7 }).2 (by decide)⟩

/-- Conversion of a signed GLint query result into the unsigned GLuint cache
type used by `AttribLocation` and `UniformLocation` (GLSLProgram.h lines
11-12): two-complement reduction modulo 2^32, as in the C++ implicit
conversion. -/
def toGLuint (i : Int) : Nat := (i % (2 ^ 32 : Int)).toNat

/-- The GLuint value the driver sentinel GLint -1 becomes: 2^32 - 1. -/
def notFoundSentinel : Nat := 2 ^ 32 - 1

/-- Modelled from the spec: `GLSLProgram::RegisterAttribute` (body not in the
excerpt) queries the driver for the location of the named vertex attribute
(`attribLoc` is the driver oracle, returning -1 for a name that is not active
in the linked program) and caches it in `m_attribList`; it never raises. -/
def RegisterAttribute (attribLoc : String → Int) (p : GLSLProgram)
    (name : String) : GLSLProgram :=
  { p with m_attribList := (name, toGLuint (attribLoc name)) :: p.m_attribList }

/-- Modelled from the spec: `GLSLProgram::RegisterUniform` (body not in the
excerpt) queries the driver for the location of the named uniform (`unifLoc`
is the driver oracle, returning -1 for a name that is not active in the
linked program) and caches it in `m_unifLocationList`; it never raises. -/
def RegisterUniform (unifLoc : String → Int) (p : GLSLProgram)
    (name : String) : GLSLProgram :=
  { p with m_unifLocationList := (name, toGLuint (unifLoc name)) :: p.m_unifLocationList }

/-- Modelled from the spec: `GLSLProgram::GetAttribLocation` (body not in the
excerpt) returns the cached location for a registered name and fails with
NotFoundError for a name that was never registered. -/
def GetAttribLocation (p : GLSLProgram) (name : String) : Except ShaderError Nat :=
  match p.m_attribList.lookup name with
  | some loc => .ok loc
  | none => .error (.notFoundError name)

/-- Modelled from the spec: `GLSLProgram::GetUniformLocation` (body not in
the excerpt) returns the cached location for a registered name and fails with
NotFoundError for a name that was never registered. -/
def GetUniformLocation (p : GLSLProgram) (name : String) : Except ShaderError Nat :=
  match p.m_unifLocationList.lookup name with
  | some loc => .ok loc
  | none => .error (.notFoundError name)

/-- C2: registering an attribute or uniform name that is not active in the
linked program (the driver resolves it to GLint -1) does not raise or abort:
it caches the not-found sentinel, the value the two-complement conversion of
-1 yields in the unsigned GLuint cache type.  That sentinel is representable
in GLuint (below 2^32) and distinguishable from the converted value of every
valid driver location (a nonnegative GLint). -/
theorem Register_inactive_name_caches_sentinel
    (attribLoc unifLoc : String → Int) (p : GLSLProgram) (name : String)
    (hA : attribLoc name = -1) (hU : unifLoc name = -1) :
    (RegisterAttribute attribLoc p name).m_attribList.lookup name =
        some notFoundSentinel
    ∧ (RegisterUniform unifLoc p name).m_unifLocationList.lookup name =
        some notFoundSentinel
    ∧ notFoundSentinel < 2 ^ 32
    ∧ ∀ v : Int, 0 ≤ v → v < 2 ^ 31 → toGLuint v ≠ notFoundSentinel := by
  refine ⟨?_, ?_, by norm_num [notFoundSentinel], ?_⟩
  · simp [RegisterAttribute, hA, List.lookup, toGLuint, notFoundSentinel]
  · simp [RegisterUniform, hU, List.lookup, toGLuint, notFoundSentinel]
  · intro v hv0 hv31
    have : v % (2 ^ 32 : Int) = v := Int.emod_eq_of_lt hv0 (by omega)
    simp only [toGLuint, notFoundSentinel, this]
    omega

/-- Witness for C2: registering the inactive name "ghost" caches the sentinel
4294967295 on both the attribute and the uniform path. -/
theorem Register_inactive_name_caches_sentinel_witness :
    (RegisterAttribute (fun _ => -1) GLSLProgram.new "ghost").m_attribList.lookup
        "ghost" = some notFoundSentinel
    ∧ (RegisterUniform (fun _ => -1) GLSLProgram.new "ghost").m_unifLocationList.lookup
        "ghost" = some notFoundSentinel
    ∧ notFoundSentinel < 2 ^ 32
    ∧ ∀ v : Int, 0 ≤ v → v < 2 ^ 31 → toGLuint v ≠ notFoundSentinel :=
  Register_inactive_name_caches_sentinel (fun _ => -1) (fun _ => -1)
    GLSLProgram.new "ghost" rfl rfl

/-- C6: GetAttribLocation and GetUniformLocation return exactly the location
cached by an earlier registration of the name, and fail with a NotFoundError
naming the queried name when it was never registered (its cache holds no
entry for it). -/
theorem GetLocation_cached_or_notFound
    (attribLoc unifLoc : String → Int) (p : GLSLProgram) (name : String) :
    (GetAttribLocation (RegisterAttribute attribLoc p name) name =
        .ok (toGLuint (attribLoc name)))
    ∧ (GetUniformLocation (RegisterUniform unifLoc p name) name =
        .ok (toGLuint (unifLoc name)))
    ∧ (p.m_attribList.lookup name = none →
        GetAttribLocation p name = .error (.notFoundError name))
    ∧ (p.m_unifLocationList.lookup name = none →
        GetUniformLocation p name = .error (.notFoundError name)) := by
  refine ⟨?_, ?_, ?_, ?_⟩
  · simp [GetAttribLocation, RegisterAttribute, List.lookup]
  · simp [GetUniformLocation, RegisterUniform, List.lookup]
  · intro h; simp [GetAttribLocation, h]
  · intro h; simp [GetUniformLocation, h]

/-- Witness for C6: on a fresh program the name "mvp" is unregistered, so
both getters fail with NotFoundError; after registration both getters return
the cached location. -/
theorem GetLocation_cached_or_notFound_witness :
    (GetAttribLocation (RegisterAttribute (fun _ => 3) GLSLProgram.new "mvp") "mvp" =
        .ok (toGLuint 3))
    ∧ (GetUniformLocation (RegisterUniform (fun _ => 3) GLSLProgram.new "mvp") "mvp" =
        .ok (toGLuint 3))
    ∧ (GetAttribLocation GLSLProgram.new "mvp" = .error (.notFoundError "mvp"))
    ∧ (GetUniformLocation GLSLProgram.new "mvp" = .error (.notFoundError "mvp")) :=
  ⟨(GetLocation_cached_or_notFound (fun _ => 3) (fun _ => 3) GLSLProgram.new "mvp").1,
   (GetLocation_cached_or_notFound (fun _ => 3) (fun _ => 3) GLSLProgram.new "mvp").2.1,
   (GetLocation_cached_or_notFound (fun _ => 3) (fun _ => 3) GLSLProgram.new "mvp").2.2.1
     rfl,
   (GetLocation_cached_or_notFound (fun _ => 3) (fun _ => 3) GLSLProgram.new "mvp").2.2.2
     rfl⟩

/-- Number of rolling frame-time samples kept for the smoothed FPS average
(the spec data model lists "rolling frame-time samples"; the sample window
size is a fixed constant of the implementation). -/
def NUM_SAMPLES : Nat := 10

/-- `class FpsLimiter` state from Timing.h: the configured cap `m_maxFPS`,
the measured FPS `m_fps`, the last frame time `m_frameTime` (C++ floats,
modelled as rationals), the frame start tick `m_startTicks`, plus the rolling
frame-time samples of the spec data model (kept in the translation unit that
is not in the excerpt).  Field defaults follow the in-class initializers at
Timing.h lines 28-31. -/
structure FpsLimiter where
  m_maxFPS : ℚ := 0
  m_fps : ℚ := 0
  m_frameTime : ℚ := 0
  m_startTicks : Nat := 0
  frameTimeSamples : List ℚ := []
deriving Repr, DecidableEq

/-- The default-constructed FpsLimiter: all fields at their in-class
initializer values (the constructor body adds nothing). -/
def FpsLimiter.construct : FpsLimiter := {}

/-- Modelled from the spec: `FpsLimiter::SetMaxFPS` (body not in the excerpt)
sets the frame-rate cap. -/
def FpsLimiter.SetMaxFPS (f : FpsLimiter) (maxFPS : ℚ) : FpsLimiter :=
  { f with m_maxFPS := maxFPS }

/-- Modelled from the spec: `FpsLimiter::Init` (body not in the excerpt) is
analogous to SetMaxFPS, per the comment in Timing.h. -/
def FpsLimiter.Init (f : FpsLimiter) (maxFPS : ℚ) : FpsLimiter :=
  f.SetMaxFPS maxFPS

/-- Modelled from the spec: `FpsLimiter::BeginFrame` (body not in the
excerpt) records the start timestamp of the current frame. -/
def FpsLimiter.BeginFrame (f : FpsLimiter) (now : Nat) : FpsLimiter :=
  { f with m_startTicks := now }

/-- Modelled from the spec: `FpsLimiter::CalculateFPS` (body not in the
excerpt) pushes the new frame time into the rolling sample window and
recomputes the smoothed FPS as 1000 over the average sample (ticks are
milliseconds), guarding the empty or all-zero window. -/
def FpsLimiter.CalculateFPS (f : FpsLimiter) (frameTicks : ℚ) : FpsLimiter :=
  let samples := (frameTicks :: f.frameTimeSamples).take NUM_SAMPLES
  let avg : ℚ := samples.sum / (samples.length : ℚ)
  { f with
      m_frameTime := frameTicks
      frameTimeSamples := samples
      m_fps := if 0 < avg then 1000 / avg else 0 }

/-- Modelled from the spec: `FpsLimiter::End` (body not in the excerpt)
computes the elapsed ticks since m_startTicks, updates the rolling average,
and, when the cap is positive and the elapsed time is below the frame budget
1000/maxFPS, sleeps for the remaining time; a cap at or below zero disables
limiting, so no sleep happens.  Returns the smoothed FPS, the slept duration
(made explicit so sleeping is observable in the model) and the new state. -/
def FpsLimiter.End (f : FpsLimiter) (now : Nat) : ℚ × ℚ × FpsLimiter :=
  let frameTicks : ℚ := ((now - f.m_startTicks : Nat) : ℚ)
  let f1 := f.CalculateFPS frameTicks
  let sleepTicks : ℚ :=
    if 0 < f.m_maxFPS ∧ frameTicks < 1000 / f.m_maxFPS
    then 1000 / f.m_maxFPS - frameTicks else 0
  (f1.m_fps, sleepTicks, f1)

/-- A run of BeginFrame-End cycles: each cycle starts at the current clock,
spends `w` ticks of work, then calls End; the clock advances by the work and
by the slept time.  Returns the final limiter state, the final clock and the
total slept time. -/
def runCycles (f : FpsLimiter) (now : Nat) : List Nat → FpsLimiter × Nat × ℚ
  | [] => (f, now, 0)
  | w :: ws =>
    let r := (f.BeginFrame now).End (now + w)
    let rest := runCycles r.2.2 (now + w + Int.toNat ⌈r.2.1⌉) ws
    (rest.1, rest.2.1, r.2.1 + rest.2.2)

/-- End keeps the configured cap. -/
theorem End_maxFPS (f : FpsLimiter) (now : Nat) :
    (f.End now).2.2.m_maxFPS = f.m_maxFPS := rfl

/-- With a cap at or below zero, every cycle of a run sleeps zero ticks, so
the final clock is the start clock plus just the work. -/
theorem runCycles_no_sleep (works : List Nat) :
    ∀ (f : FpsLimiter) (now : Nat), f.m_maxFPS ≤ 0 →
      (runCycles f now works).2.2 = 0
      ∧ (runCycles f now works).2.1 = now + works.sum := by
  induction works with
  | nil => intro f now _; simp [runCycles]
  | cons w ws ih =>
    intro f now hm
    have hsleep : ((f.BeginFrame now).End (now + w)).2.1 = 0 := by
      simp only [FpsLimiter.End, FpsLimiter.BeginFrame]
      rw [if_neg]
      rintro ⟨h1, _⟩
      exact absurd h1 (not_lt.mpr hm)
    have hmax : ((f.BeginFrame now).End (now + w)).2.2.m_maxFPS ≤ 0 := by
      rw [End_maxFPS]; exact hm
    obtain ⟨ihs, ihc⟩ := ih ((f.BeginFrame now).End (now + w)).2.2
      (now + w + Int.toNat ⌈((f.BeginFrame now).End (now + w)).2.1⌉) hmax
    constructor
    · simp only [runCycles]
      rw [hsleep] at ihs ⊢
      simpa using ihs
    · simp only [runCycles]
      rw [hsleep] at ihc ⊢
      rw [ihc]
      simp [List.sum_cons]
      omega

/-- C7: a cap at or below zero, set through Init or through SetMaxFPS,
disables frame-rate limiting: over any run of BeginFrame-End cycles the total
slept time is zero, and the total elapsed time is exactly the unthrottled
work time (final clock = start clock + sum of the per-frame work). -/
theorem nonpos_maxFPS_never_sleeps (maxFPS : ℚ) (f : FpsLimiter)
    (now : Nat) (works : List Nat) (hm : maxFPS ≤ 0) :
    (runCycles (f.SetMaxFPS maxFPS) now works).2.2 = 0
    ∧ (runCycles (f.SetMaxFPS maxFPS) now works).2.1 = now + works.sum
    ∧ (runCycles (f.Init maxFPS) now works).2.2 = 0
    ∧ (runCycles (f.Init maxFPS) now works).2.1 = now + works.sum := by
  have h1 := runCycles_no_sleep works (f.SetMaxFPS maxFPS) now hm
  exact ⟨h1.1, h1.2, h1.1, h1.2⟩

/-- Witness for C7: with the cap set to 0, three cycles of 5, 7 and 9 ticks
of work sleep 0 ticks in total and finish at tick 21. -/
theorem nonpos_maxFPS_never_sleeps_witness :
    (runCycles (FpsLimiter.construct.SetMaxFPS 0) 0 [5, 7, 9]).2.2 = 0
    ∧ (runCycles (FpsLimiter.construct.SetMaxFPS 0) 0 [5, 7, 9]).2.1 = 0 + [5, 7, 9].sum
    ∧ (runCycles (FpsLimiter.construct.Init 0) 0 [5, 7, 9]).2.2 = 0
    ∧ (runCycles (FpsLimiter.construct.Init 0) 0 [5, 7, 9]).2.1 = 0 + [5, 7, 9].sum :=
  nonpos_maxFPS_never_sleeps 0 FpsLimiter.construct 0 [5, 7, 9] (le_refl 0)

/-- C8: for a BeginFrame-End pair under a positive cap, End computes the
elapsed ticks since the BeginFrame timestamp (here the work duration w),
pushes them into the rolling sample window used for the reported FPS, sleeps
a positive amount exactly when the elapsed time is below the budget
1000/maxFPS — and then exactly the remaining time — and returns the smoothed
FPS estimate that CalculateFPS derives from the updated window. -/
theorem End_positive_cap (f : FpsLimiter) (t0 w : Nat) (hm : 0 < f.m_maxFPS) :
    ((f.BeginFrame t0).End (t0 + w)).2.2.m_frameTime = (w : ℚ)
    ∧ ((f.BeginFrame t0).End (t0 + w)).2.2.frameTimeSamples =
        ((w : ℚ) :: f.frameTimeSamples).take NUM_SAMPLES
    ∧ (0 < ((f.BeginFrame t0).End (t0 + w)).2.1 ↔ (w : ℚ) < 1000 / f.m_maxFPS)
    ∧ ((w : ℚ) < 1000 / f.m_maxFPS →
        ((f.BeginFrame t0).End (t0 + w)).2.1 = 1000 / f.m_maxFPS - (w : ℚ))
    ∧ (¬ (w : ℚ) < 1000 / f.m_maxFPS → ((f.BeginFrame t0).End (t0 + w)).2.1 = 0)
    ∧ ((f.BeginFrame t0).End (t0 + w)).1 = (f.CalculateFPS (w : ℚ)).m_fps := by
  have helapsed : ((t0 + w - t0 : Nat) : ℚ) = (w : ℚ) := by
    norm_num
  refine ⟨?_, ?_, ?_, ?_, ?_, ?_⟩
  · simp [FpsLimiter.End, FpsLimiter.BeginFrame, FpsLimiter.CalculateFPS, helapsed]
  · simp [FpsLimiter.End, FpsLimiter.BeginFrame, FpsLimiter.CalculateFPS, helapsed]
  · by_cases hlt : (w : ℚ) < 1000 / f.m_maxFPS
    · simp only [FpsLimiter.End, FpsLimiter.BeginFrame, helapsed]
      rw [if_pos ⟨hm, hlt⟩]
      constructor
      · intro _; exact hlt
      · intro _; exact sub_pos.mpr hlt
    · simp only [FpsLimiter.End, FpsLimiter.BeginFrame, helapsed]
      rw [if_neg (fun hc => hlt hc.2)]
      simp [hlt]
  · intro hlt
    simp only [FpsLimiter.End, FpsLimiter.BeginFrame, helapsed]
    rw [if_pos ⟨hm, hlt⟩]
  · intro hlt
    simp only [FpsLimiter.End, FpsLimiter.BeginFrame, helapsed]
    rw [if_neg (fun hc => hlt hc.2)]
  · simp [FpsLimiter.End, FpsLimiter.BeginFrame, FpsLimiter.CalculateFPS, helapsed]

/-- Witness for C8 at cap 50 (budget 20 ticks) and 8 ticks of work. -/
theorem End_positive_cap_witness :
    (({ FpsLimiter.construct with m_maxFPS := 50 }.BeginFrame 100).End
        (100 + 8)).2.2.m_frameTime = ((8 : Nat) : ℚ)
    ∧ (({ FpsLimiter.construct with m_maxFPS := 50 }.BeginFrame 100).End
        (100 + 8)).2.2.frameTimeSamples =
        (((8 : Nat) : ℚ) :: ({ FpsLimiter.construct with
            m_maxFPS := 50 } : FpsLimiter).frameTimeSamples).take NUM_SAMPLES
    ∧ (0 < (({ FpsLimiter.construct with m_maxFPS := 50 }.BeginFrame 100).End
        (100 + 8)).2.1 ↔ (((8 : Nat) : ℚ)) < 1000 /
        ({ FpsLimiter.construct with m_maxFPS := 50 } : FpsLimiter).m_maxFPS)
    ∧ ((((8 : Nat) : ℚ)) < 1000 /
        ({ FpsLimiter.construct with m_maxFPS := 50 } : FpsLimiter).m_maxFPS →
        (({ FpsLimiter.construct with m_maxFPS := 50 }.BeginFrame 100).End
          (100 + 8)).2.1 = 1000 /
          ({ FpsLimiter.construct with m_maxFPS := 50 } : FpsLimiter).m_maxFPS -
          ((8 : Nat) : ℚ))
    ∧ (¬ (((8 : Nat) : ℚ)) < 1000 /
        ({ FpsLimiter.construct with m_maxFPS := 50 } : FpsLimiter).m_maxFPS →
        (({ FpsLimiter.construct with m_maxFPS := 50 }.BeginFrame 100).End
          (100 + 8)).2.1 = 0)
    ∧ (({ FpsLimiter.construct with m_maxFPS := 50 }.BeginFrame 100).End
        (100 + 8)).1 =
        (({ FpsLimiter.construct with m_maxFPS := 50 } : FpsLimiter).CalculateFPS
          ((8 : Nat) : ℚ)).m_fps :=
  End_positive_cap { FpsLimiter.construct with m_maxFPS := 50 } 100 8 (by norm_num)

/-- C10: a default-constructed FpsLimiter has m_maxFPS, m_fps and m_frameTime
all 0.0 and m_startTicks 0 (the in-class initializers of Timing.h); as a
consequence, before any Init or SetMaxFPS call limiting is disabled: a single
End sleeps zero ticks, and any run of BeginFrame-End cycles sleeps zero ticks
in total. -/
theorem FpsLimiter_default_state :
    FpsLimiter.construct.m_maxFPS = 0
    ∧ FpsLimiter.construct.m_fps = 0
    ∧ FpsLimiter.construct.m_frameTime = 0
    ∧ FpsLimiter.construct.m_startTicks = 0
    ∧ (∀ now : Nat, (FpsLimiter.construct.End now).2.1 = 0)
    ∧ (∀ (now : Nat) (works : List Nat),
        (runCycles FpsLimiter.construct now works).2.2 = 0) := by
  refine ⟨rfl, rfl, rfl, rfl, ?_, ?_⟩
  · intro now
    simp only [FpsLimiter.End]
    rw [if_neg]
    rintro ⟨h1, _⟩
    exact absurd h1 (by norm_num [FpsLimiter.construct])
  · intro now works
    exact (runCycles_no_sleep works FpsLimiter.construct now (le_refl 0)).1

/-- The five attachment points a framebuffer attachment can target, chosen by
the depth/stencil flags (color, depth, stencil or combined depth-stencil,
each optionally multisampled via the attachment record). -/
inductive AttachPoint where
  | color
  | depth
  | stencil
  | depthStencil
deriving Repr, DecidableEq

/-- One attachment of the framebuffer object as the driver sees it: the
attachment point, the storage size and the multisampling configuration. -/
structure FBAttachment where
  point : AttachPoint
  width : Int
  height : Int
  multisampled : Bool
  samples : Int
deriving Repr, DecidableEq

/-- `class Framebuffer` state from Framebuffer.h: dimensions, the fbo,
renderbuffer and texture handles, plus the driver-side attachment set of the
fbo object (kept by the driver; made explicit here so completeness is
checkable). -/
structure Framebuffer where
  m_screenWidth : Int := 0
  m_screenHeight : Int := 0
  m_fboID : Nat := 0
  m_rboID : Nat := 0
  m_textureBuffer : Nat := 0
  attachments : List FBAttachment := []
deriving Repr, DecidableEq

/-- A default-constructed Framebuffer: no handles, no attachments. -/
def Framebuffer.construct : Framebuffer := {}

/-- The attachment point the depth/stencil flag pair selects. -/
def attachPointFor (depth stencil : Bool) : AttachPoint :=
  if depth && stencil then .depthStencil
  else if depth then .depth
  else if stencil then .stencil
  else .color

/-- Modelled from the spec: `Framebuffer::Init` (body not in the excerpt)
records the dimensions and allocates a fresh framebuffer object handle; a
freshly allocated fbo has no attachments. -/
def Framebuffer.Init (fb : Framebuffer) (w h : Int) (gl : GLState) :
    Framebuffer × GLState :=
  let fb1 : Framebuffer :=
    { fb with
        m_screenWidth := w
        m_screenHeight := h
        m_fboID := gl.nextId
        attachments := [] }
  (fb1, { gl with nextId := gl.nextId + 1 })

/-- Modelled from the spec: `Framebuffer::AttachTexture2D` (body not in the
excerpt) creates a 2D (or multisampled 2D) texture sized width by height with
the channel semantics the flags select, and attaches it to the framebuffer at
the corresponding attachment point. -/
def Framebuffer.AttachTexture2D (fb : Framebuffer)
    (depth stencil multisampled : Bool) (samples : Int) (gl : GLState) :
    Framebuffer × GLState :=
  let att : FBAttachment :=
    { point := attachPointFor depth stencil
      width := fb.m_screenWidth
      height := fb.m_screenHeight
      multisampled := multisampled
      samples := samples }
  let fb1 : Framebuffer :=
    { fb with
        m_textureBuffer := gl.nextId
        attachments := att :: fb.attachments }
  (fb1, { gl with nextId := gl.nextId + 1 })

/-- Modelled from the spec: `Framebuffer::CheckFramebufferStatus` (body not
in the excerpt) reports driver completeness as a boolean: complete when there
is at least one color attachment and every attachment has the framebuffer
dimensions and a positive size (the completeness rules of the spec data
model). -/
def Framebuffer.CheckFramebufferStatus (fb : Framebuffer) : Bool :=
  fb.attachments.any (fun a => a.point == AttachPoint.color)
  && fb.attachments.all (fun a =>
      a.width == fb.m_screenWidth && a.height == fb.m_screenHeight
      && decide (0 < a.width) && decide (0 < a.height))

/-- C9: for every width and height greater than zero, Init followed by a
color-only AttachTexture2D (depth, stencil and multisampled all false) yields
a framebuffer whose completeness check returns true. -/
theorem Framebuffer_color_only_complete (w h : Int) (fb : Framebuffer)
    (gl : GLState) (samples : Int) (hw : 0 < w) (hh : 0 < h) :
    ((fb.Init w h gl).1.AttachTexture2D false false false samples
        (fb.Init w h gl).2).1.CheckFramebufferStatus = true := by
  simp [Framebuffer.Init, Framebuffer.AttachTexture2D,
    Framebuffer.CheckFramebufferStatus, attachPointFor, hw, hh]

/-- Witness for C9 at 64 by 48. -/
theorem Framebuffer_color_only_complete_witness :
    ((Framebuffer.construct.Init 64 48 GLState.fresh).1.AttachTexture2D
        false false false 4
        (Framebuffer.construct.Init 64 48 GLState.fresh).2).1.CheckFramebufferStatus
      = true :=
  Framebuffer_color_only_complete 64 48 Framebuffer.construct GLState.fresh 4
    (by decide) (by decide)

end GameEngine
